import Mathlib

/-!
Shallow embedding of the identity and access subsystem of the
go-rest-api-example repository: JWT issue/parse (util), the user service
(`GetByToken`, `HasPermission`, password update), the auth service
(`LogIn`, `RefreshToken`, `LogOut`, `LogInByLine`), the password-reset
service and handlers, and the role service (`Update`, `DeleteByID`).

The relational store is modelled as explicit lists of records.  Gorm
semantics used by the code are translated as follows: `First` with a
condition returns the first matching live record or a record-not-found
error; `Count` counts matching records; `Update`/`Delete` with a `Where`
touch every matching record and succeed even when none match; `Begin` /
`Commit` / `Rollback` become building a draft state and returning either
the draft (commit) or the original state (rollback).  Storage failures
that the Go driver could produce are injected through explicit fault
flags so that transactional behaviour is observable.  A JWT string is
modelled as its decoded claims together with the signing key and method
(HMAC signing is injective on that data, and records compare token
strings by equality).  bcrypt hashing is modelled as an injective tagging
function, with comparison succeeding exactly on the matching password.
-/

namespace GoRest


/-- Decoded JWT claims: user id, token type, optional expiry (unix seconds). -/
structure JwtClaims where
  id : Nat
  typ : String
  exp : Option Nat
deriving Repr, DecidableEq

/-- A JWT token string, modelled as its claims plus signing key and method. -/
structure Token where
  claims : JwtClaims
  key : String
  hmac : Bool
deriving Repr, DecidableEq

/-- Error values surfaced by the embedded services. -/
inductive GoErr where
  /-- `jwt.ValidationError`: bad signing method, bad signature or expired. -/
  | jwtValidation
  /-- `gorm.ErrRecordNotFound`. -/
  | recordNotFound
  /-- `service.UserService.GetByToken: invalid token type`. -/
  | invalidTokenType
  /-- `service.ErrRevokedToken`. -/
  | revokedToken
  /-- `wrong token type` in `AuthService.RefreshToken`. -/
  | wrongTokenType
  /-- `service.ErrUserNotFound`. -/
  | userNotFound
  /-- bcrypt hash/password mismatch in `LogIn`. -/
  | bcryptMismatch
  /-- `service.ErrRoleNotFound`. -/
  | roleNotFound
  /-- `service.ErrAdminRoleCannotBeModified`. -/
  | adminRoleCannotBeModified
  /-- `service.ErrPermissionNotFound`. -/
  | permissionNotFound
  /-- An injected storage-layer failure. -/
  | storageFault
deriving Repr, DecidableEq

/-- `util.CreateJwtToken`: claims `id` and `type`; the `exp` claim is set
only when the caller passes a nonzero expiry ("support long live token"). -/
def CreateJwtToken (usrID : Nat) (exp : Nat) (key : String) (tokenType : String) : Token :=
  { claims := { id := usrID, typ := tokenType,
                exp := if exp ≠ 0 then some exp else none },
    key := key, hmac := true }

/-- `util.CreateAccessToken`: HS256 token of type `access` under the env key. -/
def CreateAccessToken (envKey : String) (userID : Nat) (expiredAt : Nat) : Token :=
  CreateJwtToken userID expiredAt envKey "access"

/-- `util.CreateRefreshToken`: HS256 token of type `refresh` under the env key. -/
def CreateRefreshToken (envKey : String) (userID : Nat) (expiredAt : Nat) : Token :=
  CreateJwtToken userID expiredAt envKey "refresh"

/-- `util.ParseToken`: fails (as a `jwt.ValidationError`) unless the token is
HMAC-signed with the environment key; `jwt-go` claim validation then rejects
a present expiry claim that is in the past (`now > exp`). -/
def ParseToken (envKey : String) (now : Nat) (tok : Token) : Except GoErr JwtClaims :=
  if !tok.hmac then .error .jwtValidation
  else if tok.key ≠ envKey then .error .jwtValidation
  else
    match tok.claims.exp with
    | some e => if now > e then .error .jwtValidation else .ok tok.claims
    | none => .ok tok.claims

/-- `strings.ToLower` as used on credential emails, modelled character-wise
(extensionally `String.toLower`, in a kernel-computable form). -/
def toLowerStr (s : String) : String := String.mk (s.data.map Char.toLower)

/-- `util.HashPassword` (bcrypt), modelled as an injective tagging function. -/
def HashPassword (password : String) : String :=
  "bcrypt$" ++ password

/-- `bcrypt.CompareHashAndPassword`: succeeds iff the hash was produced from
the password. -/
def bcryptMatches (hash password : String) : Bool :=
  hash == HashPassword password

/-- `model.User` (live rows; gorm's soft-delete scope hides deleted rows). -/
structure User where
  id : Nat
  organizationID : Nat
  email : String
  /-- Stored bcrypt hash. -/
  password : String
  lineID : String
  roleID : Option String
deriving Repr, DecidableEq

/-- `model.RefreshToken` record: token string plus revoked flag. -/
structure RefreshTokenRec where
  token : Token
  revoked : Bool
deriving Repr, DecidableEq

/-- `model.ActivityLog` activity types used by the auth flows. -/
inductive ActivityType where
  | login
  | logout
  | pwdChangeReq
deriving Repr, DecidableEq

/-- `model.ActivityLog` entry. -/
structure ActivityLog where
  userID : Nat
  activityType : ActivityType
deriving Repr, DecidableEq

/-- `model.Permission`: identifier plus name. -/
structure Permission where
  id : String
  name : String
deriving Repr, DecidableEq

/-- `model.Role` (live rows; `DeleteByID` soft-deletes the row itself). -/
structure Role where
  id : String
  name : String
  description : String
  teamID : Nat
deriving Repr, DecidableEq

/-- `model.RolePermission`: associative row between roles and permissions. -/
structure RolePermission where
  roleID : String
  permissionID : String
deriving Repr, DecidableEq

/-- `model.PasswordReset` record (live rows). -/
structure PasswordResetRec where
  email : String
  token : String
  createdAt : Nat
deriving Repr, DecidableEq

/-- The relational store: one list of live records per table used by the
identity subsystem, plus team ids for the middleware's team lookup. -/
structure DB where
  users : List User
  refreshTokens : List RefreshTokenRec
  activityLogs : List ActivityLog
  roles : List Role
  rolePermissions : List RolePermission
  permissions : List Permission
  passwordResets : List PasswordResetRec
  teams : List Nat
deriving Repr, DecidableEq

/-- Injected storage failures for the individual write calls, so that the
transactional (or non-transactional) behaviour of the services is
observable. `false` everywhere means the storage layer succeeds. -/
structure Faults where
  createRefreshTokenFails : Bool
  saveUserFails : Bool
  createActivityLogFails : Bool
  commitFails : Bool
  deleteResetFails : Bool
deriving Repr, DecidableEq

/-- The fault assignment under which every storage call succeeds. -/
def Faults.none : Faults :=
  { createRefreshTokenFails := false, saveUserFails := false,
    createActivityLogFails := false, commitFails := false,
    deleteResetFails := false }

/-- `service.UserService.GetByToken`: parse the token, accept type `access`
or `refresh`, then load the user whose id is in the claims. -/
def GetByToken (envKey : String) (now : Nat) (db : DB) (tok : Token) :
    Except GoErr User := do
  let claims ← ParseToken envKey now tok
  if claims.typ ≠ "access" ∧ claims.typ ≠ "refresh" then
    .error .invalidTokenType
  else
    match db.users.find? (fun u => u.id == claims.id) with
    | none => .error .userNotFound
    | some u => .ok u

/-- Outcome of the `AuthRequired` middleware for one request. -/
inductive AuthOutcome where
  /-- 401 with message `Authentication failed`. -/
  | unauthorized
  /-- 500 (storage or other unexpected error). -/
  | internalError
  /-- Request proceeds with user and team set in the context. -/
  | authenticated (user : User) (team : Nat)
deriving Repr, DecidableEq

/-- `middleware.AuthRequired`: resolve the bearer token via
`UserService.GetByToken`; `jwt.ValidationError` and `ErrUserNotFound` map to
401, any other error (including the invalid-token-type error) to 500; then
look up the user's organization as the team. -/
def AuthRequired (envKey : String) (now : Nat) (db : DB) (bearer : Option Token) :
    AuthOutcome :=
  match bearer with
  | none => .unauthorized
  | some tok =>
    match GetByToken envKey now db tok with
    | .error .jwtValidation => .unauthorized
    | .error .userNotFound => .unauthorized
    | .error _ => .internalError
    | .ok user =>
      match db.teams.find? (fun t => t == user.organizationID) with
      | none => .internalError
      | some team => .authenticated user team

/-- `model.RoleAdmin`, the administrator role name. -/
def RoleAdmin : String := "Admin"

/-- Modelled from the spec: `model.AllPermissions`, the fixed permission
catalog (read/create/update/delete per resource family), is declared outside
the provided sources; the routes reference the user-family members. -/
def AllPermissions : List Permission :=
  [⟨"perm-user-read", "user:read"⟩, ⟨"perm-user-create", "user:create"⟩,
   ⟨"perm-user-update", "user:update"⟩, ⟨"perm-user-delete", "user:delete"⟩]

/-- `model.LoginParams`. -/
structure LoginParams where
  email : String
  password : String
  isLongLiveToken : Bool
deriving Repr, DecidableEq

/-- `model.TokenSet`: the access/refresh pair returned by login. -/
structure TokenSet where
  accessToken : Token
  refreshToken : Token
deriving Repr, DecidableEq

/-- `time.Hour * 24 * 30` in seconds (the one-month lifespans in `LogIn`). -/
def monthSeconds : Nat := 30 * 24 * 3600

/-- `time.Hour * 24 * 7` in seconds (the refresh lifespan in `LogInByLine`). -/
def weekSeconds : Nat := 7 * 24 * 3600

/-- `service.AuthService.LogIn`: look up the user by lowercased email,
compare the bcrypt hash, mint the access token (expiry zeroed out when the
long-live flag is set) and the refresh token, then inside one transaction
create the refresh-token record, synthesize an Admin role for users
predating roles, and append the `login` activity log; any failure rolls the
transaction back to the original state. -/
def LogIn (envKey : String) (now : Nat) (f : Faults) (db : DB) (cred : LoginParams) :
    DB × Except GoErr TokenSet :=
  match db.users.find? (fun u => u.email == toLowerStr cred.email) with
  | none => (db, .error .recordNotFound)
  | some user =>
    if !bcryptMatches user.password cred.password then (db, .error .bcryptMismatch)
    else
      let accessTokenExpiredAt := if cred.isLongLiveToken then 0 else now + monthSeconds
      let accessTokenStr := CreateAccessToken envKey user.id accessTokenExpiredAt
      let refreshTokenStr := CreateRefreshToken envKey user.id (now + monthSeconds)
      let txResult : Except GoErr DB := do
        if f.createRefreshTokenFails then throw .storageFault
        let tx1 : DB := { db with refreshTokens :=
          db.refreshTokens ++ [{ token := refreshTokenStr, revoked := false }] }
        let tx2 : DB ←
          if user.roleID = none then do
            -- Create role for old (backward compatibility): `tx.Save(&user)`
            -- inserts the associated role (no id generated), its permission
            -- links, and points the user at it.
            if f.saveUserFails then throw .storageFault
            pure ({ tx1 with
              roles := tx1.roles ++
                [{ id := "", name := RoleAdmin, description := "Administrator",
                   teamID := user.organizationID }],
              rolePermissions := tx1.rolePermissions ++
                AllPermissions.map (fun p => { roleID := "", permissionID := p.id }),
              users := tx1.users.map (fun u =>
                if u.id == user.id then { u with roleID := some "" } else u) } : DB)
          else pure tx1
        if f.createActivityLogFails then throw .storageFault
        let tx3 : DB := { tx2 with activityLogs :=
          tx2.activityLogs ++ [{ userID := user.id, activityType := .login }] }
        if f.commitFails then throw .storageFault
        pure tx3
      match txResult with
      | .error e => (db, .error e)
      | .ok db2 => (db2, .ok { accessToken := accessTokenStr, refreshToken := refreshTokenStr })

/-- `service.AuthService.RefreshToken`: load the stored record by token
string, reject revoked records, parse the token, require type `refresh`, and
mint a fresh one-month access token for the same subject id.  The session
performs no write, so the state is returned unchanged on every path. -/
def RefreshToken (envKey : String) (now : Nat) (db : DB) (refreshToken : Token) :
    DB × Except GoErr Token :=
  match db.refreshTokens.find? (fun r => r.token == refreshToken) with
  | none => (db, .error .recordNotFound)
  | some rt =>
    if rt.revoked then (db, .error .revokedToken)
    else
      match ParseToken envKey now refreshToken with
      | .error e => (db, .error e)
      | .ok claims =>
        if claims.typ ≠ "refresh" then (db, .error .wrongTokenType)
        else (db, .ok (CreateAccessToken envKey claims.id (now + monthSeconds)))

/-- `service.AuthService.LogOut`: the session is created with `WithContext`
alone (no `Begin`), so each write commits immediately and the `Rollback`
calls are no-ops.  The revoked flag is set on every record matching the
token string (zero matches is not an error), the owner is resolved through
`GetByToken`, and a `logout` activity log is appended. -/
def LogOut (envKey : String) (now : Nat) (f : Faults) (db : DB) (refreshToken : Token) :
    DB × Except GoErr Unit :=
  let db1 := { db with refreshTokens := db.refreshTokens.map (fun r =>
    if r.token == refreshToken then { r with revoked := true } else r) }
  match GetByToken envKey now db1 refreshToken with
  | .error e => (db1, .error e)
  | .ok usr =>
    if f.createActivityLogFails then (db1, .error .storageFault)
    else
      ({ db1 with activityLogs :=
          db1.activityLogs ++ [{ userID := usr.id, activityType := .logout }] },
       .ok ())

/-- `service.AuthService.LogInByLine`: look up the user by Line id, mint a
one-month access token and a one-week refresh token, then transactionally
create the refresh-token record and the `login` activity log. -/
def LogInByLine (envKey : String) (now : Nat) (f : Faults) (db : DB) (lineID : String) :
    DB × Except GoErr TokenSet :=
  match db.users.find? (fun u => u.lineID == lineID) with
  | none => (db, .error .recordNotFound)
  | some usr =>
    let accTok := CreateAccessToken envKey usr.id (now + monthSeconds)
    let refreshTok := CreateRefreshToken envKey usr.id (now + weekSeconds)
    let txResult : Except GoErr DB := do
      if f.createRefreshTokenFails then throw .storageFault
      let tx1 : DB := { db with refreshTokens :=
        db.refreshTokens ++ [{ token := refreshTok, revoked := false }] }
      if f.createActivityLogFails then throw .storageFault
      let tx2 : DB := { tx1 with activityLogs :=
        tx1.activityLogs ++ [{ userID := usr.id, activityType := .login }] }
      if f.commitFails then throw .storageFault
      pure tx2
    match txResult with
    | .error e => (db, .error e)
    | .ok db2 => (db2, .ok { accessToken := accTok, refreshToken := refreshTok })

/-- `service.passwordResetRecordExpiryTime`: `1 * 3600` seconds. -/
def passwordResetRecordExpiryTime : Int := 1 * 3600

/-- Live password-reset rows matching the given email and token. -/
def resetRowsFor (db : DB) (email token : String) : List PasswordResetRec :=
  db.passwordResets.filter (fun r => r.email == email && r.token == token)

/-- `service.PasswordService.checkPasswordResetExist`: count of records with
this email and token is at least one. -/
def checkPasswordResetExist (db : DB) (email token : String) : Bool :=
  1 ≤ (resetRowsFor db email token).length

/-- `service.PasswordService.CheckPasswordResetExpire`: `First` the record
with this email and token — a missing record surfaces as its
record-not-found error, since the `err != nil` return precedes the
dedicated not-found branch (which is therefore unreachable) — and report
whether `now - createdAt` exceeds the expiry window. -/
def CheckPasswordResetExpire (now : Nat) (db : DB) (email token : String) :
    Except GoErr Bool :=
  match (resetRowsFor db email token).head? with
  | none => .error .recordNotFound
  | some pr =>
    .ok (decide ((now : Int) - (pr.createdAt : Int) > passwordResetRecordExpiryTime))

/-- `service.PasswordService.ValidateEmailAndToken`: the record exists and
is not expired; errors of either check propagate. -/
def ValidateEmailAndToken (now : Nat) (db : DB) (email token : String) :
    Except GoErr Bool := do
  let exist := checkPasswordResetExist db email token
  let expired ← CheckPasswordResetExpire now db email token
  pure (exist && !expired)

/-- `service.PasswordService.CheckPasswordResetEmailExist`: some record with
this email exists. -/
def CheckPasswordResetEmailExist (db : DB) (email : String) : Bool :=
  1 ≤ (db.passwordResets.filter (fun r => r.email == email)).length

/-- `service.PasswordService.EmailExist`: some user row carries exactly this
email. -/
def EmailExist (db : DB) (email : String) : Bool :=
  1 ≤ (db.users.filter (fun u => u.email == email)).length

/-- `service.PasswordService.DeletePasswordResetRecord`: soft-delete every
record with this email and token (modelled as removal from the live rows). -/
def DeletePasswordResetRecord (db : DB) (email token : String) : DB :=
  { db with passwordResets :=
      db.passwordResets.filter (fun r => !(r.email == email && r.token == token)) }

/-- `service.PasswordService.CheckPasswordResetEmailExpire`: `First` record
with this email (none counts as expired); when expired, delete that record
as a side effect. -/
def CheckPasswordResetEmailExpire (now : Nat) (db : DB) (email : String) :
    DB × Bool :=
  match (db.passwordResets.filter (fun r => r.email == email)).head? with
  | none => (db, true)
  | some pr =>
    if ((now : Int) - (pr.createdAt : Int) > passwordResetRecordExpiryTime : Bool) then
      (DeletePasswordResetRecord db email pr.token, true)
    else (db, false)

/-- `service.PasswordService.GetPasswordReset`: first record with this
email, or the zero record when none exists (not-found is swallowed). -/
def GetPasswordReset (db : DB) (email : String) : PasswordResetRec :=
  match (db.passwordResets.filter (fun r => r.email == email)).head? with
  | none => { email := "", token := "", createdAt := 0 }
  | some pr => pr

/-- `service.PasswordService.ResetPassword`: hash the new password, load the
user by exact email, and update that user's password column. -/
def ResetPassword (db : DB) (email password : String) : Except GoErr DB :=
  let newHashedPassword := HashPassword password
  match db.users.find? (fun u => u.email == email) with
  | none => .error .recordNotFound
  | some usr =>
    .ok { db with users := db.users.map (fun u =>
      if u.id == usr.id then { u with password := newHashedPassword } else u) }

/-- An HTTP response as produced by the password handlers: status code plus
body message. -/
structure HttpResponse where
  status : Nat
  message : String
deriving Repr, DecidableEq

/-- Result of a password-handler request: final store, response, and the
password-reset notifications handed to the email collaborator. -/
structure HandlerResult where
  db : DB
  response : HttpResponse
  emailsSent : List PasswordResetRec
deriving Repr, DecidableEq

/-- `handler.Password.createNewPasswordReset` followed by
`createPasswordReset`: fetch any old record for the email, delete it when
present, create a record with the freshly generated token, and send the
notification.  `freshTok` stands for the random token from
`util.GenerateRandomString(128)`.  The password routes carry no
authenticated user, so the `PasswordReset.AfterCreate` activity-log hook
finds no context user and writes nothing. -/
def createNewPasswordReset (now : Nat) (db : DB) (email freshTok : String) :
    HandlerResult :=
  let prOld := GetPasswordReset db email
  let db1 := if prOld.email ≠ "" then DeletePasswordResetRecord db prOld.email prOld.token
             else db
  let prNew : PasswordResetRec := { email := email, token := freshTok, createdAt := now }
  let db2 := { db1 with passwordResets := db1.passwordResets ++ [prNew] }
  { db := db2, response := { status := 201, message := "success" }, emailsSent := [prNew] }

/-- `handler.Password.CreatePasswordReset` (the `requestReset` entry point):
reject an empty email with 400; answer 200 success without any record or
notification when no user carries the email; otherwise resend the existing
unexpired record's notification or replace an expired/absent record with a
new one, answering 201. -/
def CreatePasswordReset (now : Nat) (db : DB) (email freshTok : String) :
    HandlerResult :=
  if email = "" then
    { db := db, response := { status := 400, message := "email is required" },
      emailsSent := [] }
  else if !EmailExist db email then
    { db := db, response := { status := 200, message := "success" }, emailsSent := [] }
  else
    let prEmailExist := CheckPasswordResetEmailExist db email
    if prEmailExist then
      let (db1, expired) := CheckPasswordResetEmailExpire now db email
      if expired then createNewPasswordReset now db1 email freshTok
      else
        let pr := GetPasswordReset db1 email
        { db := db1, response := { status := 201, message := "success" },
          emailsSent := [pr] }
    else createNewPasswordReset now db email freshTok

/-- `model.ResetPasswordParams`. -/
structure ResetPasswordParams where
  email : String
  password : String
  token : String
deriving Repr, DecidableEq

/-- `handler.Password.ResetPassword` (the `completeReset` entry point):
require `ValidateEmailAndToken` (500 on its error, 400 on false), update the
user's password hash, then delete the reset record — a delete failure is
answered as a distinct 500 while the already-updated password stays. -/
def ResetPasswordHandler (now : Nat) (f : Faults) (db : DB)
    (params : ResetPasswordParams) : DB × HttpResponse :=
  match ValidateEmailAndToken now db params.email params.token with
  | .error _ => (db, { status := 500, message := "validate failed" })
  | .ok false => (db, { status := 400, message := "email and/or token is invalid" })
  | .ok true =>
    match ResetPassword db params.email params.password with
    | .error _ => (db, { status := 500, message := "reset failed" })
    | .ok db1 =>
      if f.deleteResetFails then (db1, { status := 500, message := "delete failed" })
      else (DeletePasswordResetRecord db1 params.email params.token,
            { status := 200, message := "success" })

/-- `service.RoleService.Update`: load the role row by id (`RoleNotFound`
when absent), refuse a role named Admin, require every requested permission
id to exist in the catalog, then save the row and replace its permission
associations. -/
def RoleUpdate (db : DB) (roleID name description : String) (teamID : Nat)
    (perms : List Permission) : Except GoErr DB :=
  match db.roles.find? (fun r => r.id == roleID) with
  | none => .error .roleNotFound
  | some tmpRole =>
    if tmpRole.name == RoleAdmin then .error .adminRoleCannotBeModified
    else
      let permIDs := perms.map (fun p => p.id)
      let count := (db.permissions.filter (fun p => permIDs.contains p.id)).length
      if count ≠ perms.length then .error .permissionNotFound
      else
        .ok { db with
          roles := db.roles.map (fun r =>
            if r.id == roleID then
              { id := roleID, name := name, description := description, teamID := teamID }
            else r),
          rolePermissions :=
            db.rolePermissions.filter (fun rp => !(rp.roleID == roleID)) ++
              perms.map (fun p => { roleID := roleID, permissionID := p.id }) }

/-- `service.RoleService.DeleteByID`: load the role row by id (`RoleNotFound`
when absent), refuse a role named Admin, then `Delete(&model.Role{ID:
roleID})` — gorm soft-deletes the `roles` row only, so the
`role_permissions` association rows are left untouched. -/
def RoleDeleteByID (db : DB) (roleID : String) : Except GoErr DB :=
  match db.roles.find? (fun r => r.id == roleID) with
  | none => .error .roleNotFound
  | some tmpRole =>
    if tmpRole.name == RoleAdmin then .error .adminRoleCannotBeModified
    else .ok { db with roles := db.roles.filter (fun r => !(r.id == roleID)) }

/-- The rows of the `roles ⋈ users ⋈ role_permissions ⋈ permissions` join in
`UserService.HasPermission`, restricted to the given user id and permission
name. -/
def permJoinRows (db : DB) (userID : Nat) (permName : String) :
    List (Role × User × RolePermission × Permission) :=
  db.roles.flatMap (fun r =>
    (db.users.filter (fun u => u.roleID == some r.id && u.id == userID)).flatMap (fun u =>
      (db.rolePermissions.filter (fun rp => rp.roleID == r.id)).flatMap (fun rp =>
        (db.permissions.filter (fun p => p.id == rp.permissionID && p.name == permName)).map
          (fun p => (r, u, rp, p)))))

/-- `service.UserService.HasPermission`: count the join rows for (user id,
permission name) and report whether the count is exactly one; a storage
error is the only error path. -/
def HasPermission (db : DB) (userID : Nat) (permName : String) : Except GoErr Bool :=
  .ok ((permJoinRows db userID permName).length == 1)

/-! Concrete fixtures used by witnesses and counterexamples. -/

/-- A signing key for concrete runs. -/
def key0 : String := "k"

/-- A user with a role, as created by the normal sign-up path. -/
def alice : User :=
  { id := 1, organizationID := 10, email := "alice@example.com",
    password := HashPassword "pw123", lineID := "aliceline", roleID := some "r1" }

/-- The empty store. -/
def emptyDB : DB :=
  { users := [], refreshTokens := [], activityLogs := [], roles := [],
    rolePermissions := [], permissions := [], passwordResets := [], teams := [] }

/-- A store holding only `alice` and her team. -/
def db0 : DB := { emptyDB with users := [alice], teams := [10] }

/-- A valid, unexpired refresh token for `alice` under `key0` at time 0. -/
def rtok0 : Token := CreateRefreshToken key0 1 100

/-- A password-reset record for a fixed pair created at time 0. -/
def pr0 : PasswordResetRec := { email := "a@b.com", token := "tok", createdAt := 0 }

/-- A store holding only the reset record `pr0`. -/
def dbPr : DB := { emptyDB with passwordResets := [pr0] }

/-- A user without a reset record in flight, for the complete-reset runs. -/
def bob : User :=
  { id := 2, organizationID := 20, email := "bob@x.com",
    password := HashPassword "old", lineID := "", roleID := none }

/-- Bob's pending reset record, created at time 0. -/
def prBob : PasswordResetRec := { email := "bob@x.com", token := "tok", createdAt := 0 }

/-- Store with `bob` and his pending reset record. -/
def dbBob : DB := { emptyDB with users := [bob], passwordResets := [prBob] }

/-- The complete-reset request for Bob's pending record. -/
def rpParams : ResetPasswordParams :=
  { email := "bob@x.com", password := "newpw", token := "tok" }

/-- Faults where only the final reset-record delete fails. -/
def faultsDel : Faults := { Faults.none with deleteResetFails := true }

/-- `dbBob` after the password update and record deletion. -/
def dbBobAfter : DB :=
  { emptyDB with users := [{ bob with password := HashPassword "newpw" }] }

/-- A non-admin role. -/
def memberRole : Role := { id := "r1", name := "Member", description := "", teamID := 1 }

/-- The admin role of team 1. -/
def adminRole : Role := { id := "rA", name := "Admin", description := "", teamID := 1 }

/-- A store with both roles and one permission association each. -/
def dbRole : DB :=
  { emptyDB with
    roles := [adminRole, memberRole],
    rolePermissions := [{ roleID := "rA", permissionID := "p1" },
                        { roleID := "r1", permissionID := "p1" }],
    permissions := [{ id := "p1", name := "user:read" }] }

/-- A user whose email exists, for the enumeration comparison. -/
def carol : User :=
  { id := 3, organizationID := 30, email := "carol@x.com",
    password := HashPassword "pw", lineID := "", roleID := none }

/-- Store with only `carol`. -/
def dbC8 : DB := { emptyDB with users := [carol] }

/-- Store with `alice` and a stored active record for `rtok0`. -/
def dbTok : DB := { db0 with refreshTokens := [{ token := rtok0, revoked := false }] }

/-- Faults where only the activity-log insert fails. -/
def faultsLog : Faults := { Faults.none with createActivityLogFails := true }

/-- An access token for `alice` under `key0`, valid at time 0. -/
def atok0 : Token := CreateAccessToken key0 1 100

/-- A well-signed token of `alice` with an unrecognized purpose claim. -/
def wtok0 : Token := CreateJwtToken 1 100 key0 "weird"

/-- A store with `alice` and a revoked record for `rtok0`. -/
def dbTokRevoked : DB :=
  { db0 with refreshTokens := [{ token := rtok0, revoked := true }] }

/-- A store granting `user:read` (and nothing else) to `alice` through role
`r1`. -/
def dbPerm : DB :=
  { db0 with
    roles := [{ id := "r1", name := "Member", description := "", teamID := 10 }],
    rolePermissions := [{ roleID := "r1", permissionID := "p1" }],
    permissions := [{ id := "p1", name := "user:read" },
                    { id := "p2", name := "user:delete" }] }

/-- Alice's credentials with a mixed-case email, exercising normalization. -/
def credAlice : LoginParams :=
  { email := "Alice@example.com", password := "pw123", isLongLiveToken := false }

/-- The token pair Alice's login mints at time 0. -/
def tsAlice : TokenSet :=
  { accessToken := CreateAccessToken key0 1 (0 + monthSeconds),
    refreshToken := CreateRefreshToken key0 1 (0 + monthSeconds) }

/-- `db0` after Alice's fault-free password login at time 0. -/
def dbAfterLogin : DB :=
  { db0 with
    refreshTokens := [{ token := CreateRefreshToken key0 1 (0 + monthSeconds),
                        revoked := false }],
    activityLogs := [{ userID := 1, activityType := .login }] }

/-- The token pair Alice's Line login mints at time 0. -/
def tsLine : TokenSet :=
  { accessToken := CreateAccessToken key0 1 (0 + monthSeconds),
    refreshToken := CreateRefreshToken key0 1 (0 + weekSeconds) }

/-- `db0` after Alice's fault-free Line login at time 0. -/
def dbAfterLine : DB :=
  { db0 with
    refreshTokens := [{ token := CreateRefreshToken key0 1 (0 + weekSeconds),
                        revoked := false }],
    activityLogs := [{ userID := 1, activityType := .login }] }

/-! ### Theorems settling the claims -/

/-- C4, failing input: `ValidateEmailAndToken` on a store with no matching
record.  The code reaches `First` inside `CheckPasswordResetExpire`, whose
`err != nil` return fires before the dedicated not-found branch, so the
caller receives a record-not-found error — the claim (and the unreachable
branch itself) say the answer is plainly `false`. -/
theorem validate_no_record_errors :
    ValidateEmailAndToken 0 emptyDB "a@b.com" "tok" = .error .recordNotFound ∧
    ValidateEmailAndToken 4000 dbPr "a@b.com" "tok" = .ok false ∧
    ValidateEmailAndToken 3600 dbPr "a@b.com" "tok" = .ok true := by
  exact ⟨rfl, rfl, rfl⟩

/-- C5, failing input: completing Bob's reset succeeds and consumes the
record (and an expired record is answered 400, a failing delete is a
distinct 500 that keeps the already-updated password), but `validate`
immediately afterwards returns a record-not-found error — not the plain
`false` that exactly-once consumption promises — because of the unreachable
not-found branch in `CheckPasswordResetExpire`. -/
theorem completeReset_then_validate_errors :
    ResetPasswordHandler 100 Faults.none dbBob rpParams =
      (dbBobAfter, { status := 200, message := "success" }) ∧
    ValidateEmailAndToken 100 dbBobAfter "bob@x.com" "tok" = .error .recordNotFound ∧
    ResetPasswordHandler 4000 Faults.none dbBob rpParams =
      (dbBob, { status := 400, message := "email and/or token is invalid" }) ∧
    ResetPasswordHandler 100 faultsDel dbBob rpParams =
      ({ dbBob with users := [{ bob with password := HashPassword "newpw" }] },
       { status := 500, message := "delete failed" }) := by
  exact ⟨rfl, rfl, rfl, rfl⟩

/-- C6 counterexample: deleting the non-admin role `r1` succeeds but leaves
the `role_permissions` row `(r1, p1)` in place — `Delete(&model.Role{ID})`
soft-deletes only the `roles` row, so the claim that the role's permission
associations are removed fails. -/
theorem roleDelete_keeps_associations :
    RoleDeleteByID dbRole "r1" = .ok { dbRole with roles := [adminRole] } ∧
    ({ dbRole with roles := [adminRole] } : DB).rolePermissions =
      [{ roleID := "rA", permissionID := "p1" },
       { roleID := "r1", permissionID := "p1" }] := by
  exact ⟨rfl, rfl⟩

/-- C8 counterexample: a reset request for an unknown email is answered
200 with no record and no notification, but a request for an existing email
is answered 201 — the success responses of the two cases are
distinguishable by status code. -/
theorem requestReset_responses_distinguishable :
    CreatePasswordReset 0 dbC8 "bob@example.com" "t" =
      { db := dbC8, response := { status := 200, message := "success" },
        emailsSent := [] } ∧
    (CreatePasswordReset 0 dbC8 "carol@x.com" "t").response.status = 201 ∧
    (200 : Nat) ≠ 201 := by
  exact ⟨rfl, rfl, by decide⟩

/-- C2 counterexample: with no stored record for the (valid) refresh token,
`LogOut` succeeds instead of failing with a token-not-found error; and with
a stored record but a failing log insert, the revocation stays committed
while the log entry is missing — the two writes are not atomic (the session
has no `Begin`, so each write commits immediately). -/
theorem logout_succeeds_without_record_and_is_not_atomic :
    LogOut key0 0 Faults.none db0 rtok0 =
      ({ db0 with activityLogs := [{ userID := 1, activityType := .logout }] },
       .ok ()) ∧
    LogOut key0 0 faultsLog dbTok rtok0 =
      ({ dbTok with refreshTokens := [{ token := rtok0, revoked := true }] },
       .error .storageFault) := by
  exact ⟨rfl, rfl⟩

/-- C1 counterexample: a token whose purpose claim is `refresh` passes the
`AuthRequired` middleware and resolves to `alice`, because `GetByToken`
accepts both `access` and `refresh` types. -/
theorem authRequired_accepts_refresh_purpose :
    AuthRequired key0 0 db0 (some rtok0) = .authenticated alice 10 ∧
    rtok0.claims.typ = "refresh" := by
  exact ⟨rfl, rfl⟩

/-- `ParseToken` never rewrites claims: a successful parse returns the
token's own claim set. -/
theorem parseToken_ok_claims (envKey : String) (now : Nat) (tok : Token)
    (c : JwtClaims) (h : ParseToken envKey now tok = .ok c) : c = tok.claims := by
  unfold ParseToken at h
  split at h
  · exact absurd h (by simp)
  · split at h
    · exact absurd h (by simp)
    · split at h
      · split at h
        · exact absurd h (by simp)
        · exact (Except.ok.inj h).symm
      · exact (Except.ok.inj h).symm

/-- A successful `GetByToken` implies the token type was `access` or
`refresh`. -/
theorem getByToken_ok_typ (envKey : String) (now : Nat) (db : DB) (tok : Token)
    (u : User) (h : GetByToken envKey now db tok = .ok u) :
    tok.claims.typ = "access" ∨ tok.claims.typ = "refresh" := by
  unfold GetByToken at h
  cases hp : ParseToken envKey now tok with
  | error e => rw [hp] at h; exact absurd h (by simp [Bind.bind, Except.bind])
  | ok c =>
    have hc := parseToken_ok_claims envKey now tok c hp
    subst hc
    rw [hp] at h
    simp only [Bind.bind, Except.bind] at h
    split at h
    · exact absurd h (by simp)
    · rename_i hcond
      rcases not_and_or.mp hcond with h1 | h2
      · exact Or.inl (not_not.mp h1)
      · exact Or.inr (not_not.mp h2)

/-- With a valid signature but a type other than `access`/`refresh`,
`GetByToken` fails with the invalid-token-type error. -/
theorem getByToken_other_typ (envKey : String) (now : Nat) (db : DB) (tok : Token)
    (hp : ParseToken envKey now tok = .ok tok.claims)
    (ha : tok.claims.typ ≠ "access") (hr : tok.claims.typ ≠ "refresh") :
    GetByToken envKey now db tok = .error .invalidTokenType := by
  unfold GetByToken
  rw [hp]
  simp only [Bind.bind, Except.bind]
  rw [if_pos ⟨ha, hr⟩]

/-- C1, amended: authentication through `AuthRequired` succeeds only when
the token's purpose claim is `access` or `refresh`; a token with any other
purpose value never resolves to a principal — it is rejected (as an
invalid-token-type error answered 500), not attached to the request. -/
theorem authRequired_purpose_access_or_refresh (envKey : String) (now : Nat)
    (db : DB) (tok : Token) (user : User) (team : Nat) :
    (AuthRequired envKey now db (some tok) = .authenticated user team →
      tok.claims.typ = "access" ∨ tok.claims.typ = "refresh") ∧
    (ParseToken envKey now tok = .ok tok.claims → tok.claims.typ ≠ "access" →
      tok.claims.typ ≠ "refresh" →
      AuthRequired envKey now db (some tok) = .internalError) := by
  constructor
  · intro h
    simp only [AuthRequired] at h
    cases hg : GetByToken envKey now db tok with
    | error e =>
      rw [hg] at h
      cases e <;> simp at h
    | ok u => exact getByToken_ok_typ envKey now db tok u hg
  · intro hp ha hr
    simp only [AuthRequired]
    rw [getByToken_other_typ envKey now db tok hp ha hr]

/-- Witness for the amended C1 theorem at concrete inputs: an authenticated
run with `atok0` yields an admitted purpose, and the odd-purpose token
`wtok0` is answered with the internal-error outcome. -/
theorem authRequired_purpose_witness :
    (atok0.claims.typ = "access" ∨ atok0.claims.typ = "refresh") ∧
    AuthRequired key0 0 db0 (some wtok0) = .internalError :=
  ⟨(authRequired_purpose_access_or_refresh key0 0 db0 atok0 alice 10).1 rfl,
   (authRequired_purpose_access_or_refresh key0 0 db0 wtok0 alice 10).2 rfl
     (by decide) (by decide)⟩

/-- C6, amended: updating or deleting the role named `Admin` fails with the
admin-immutable error before any write (so the state is untouched), and
deleting a non-Admin role with a matching id succeeds, soft-deleting the
`roles` row while leaving its `role_permissions` association rows in
place. -/
theorem adminRole_immutable_delete_keeps_links (db : DB) (r : Role)
    (nm ds : String) (teamID : Nat) (perms : List Permission)
    (hfind : db.roles.find? (fun x => x.id == r.id) = some r) :
    (r.name = "Admin" →
      RoleUpdate db r.id nm ds teamID perms = .error .adminRoleCannotBeModified ∧
      RoleDeleteByID db r.id = .error .adminRoleCannotBeModified) ∧
    (r.name ≠ "Admin" →
      RoleDeleteByID db r.id =
        .ok { db with roles := db.roles.filter (fun x => !(x.id == r.id)) }) := by
  constructor
  · intro hAdmin
    constructor
    · unfold RoleUpdate
      rw [hfind]
      simp [RoleAdmin, hAdmin]
    · unfold RoleDeleteByID
      rw [hfind]
      simp [RoleAdmin, hAdmin]
  · intro hNot
    unfold RoleDeleteByID
    rw [hfind]
    simp [RoleAdmin, hNot]

/-- Witness for the amended C6 theorem on `dbRole`: the Admin role `rA`
cannot be updated or deleted, while the non-admin `r1` is deleted with its
association row kept. -/
theorem adminRole_immutable_witness :
    (RoleUpdate dbRole "rA" "X" "" 1 [] = .error .adminRoleCannotBeModified ∧
      RoleDeleteByID dbRole "rA" = .error .adminRoleCannotBeModified) ∧
    RoleDeleteByID dbRole "r1" =
      .ok { dbRole with roles := dbRole.roles.filter (fun x => !(x.id == "r1")) } :=
  ⟨(adminRole_immutable_delete_keeps_links dbRole adminRole "X" "" 1 [] rfl).1 rfl,
   (adminRole_immutable_delete_keeps_links dbRole memberRole "X" "" 1 [] rfl).2
     (by decide)⟩

/-- C8, amended: a reset request for an email with no matching user is
answered with a 200 success, creates no record and sends no notification;
the success signal is however the 200 status, while the existing-account
flows answer 201, so the two responses are distinguishable. -/
theorem requestReset_unknown_email_noop (now : Nat) (db : DB)
    (email freshTok : String) (hne : email ≠ "")
    (hnx : EmailExist db email = false) :
    CreatePasswordReset now db email freshTok =
      { db := db, response := { status := 200, message := "success" },
        emailsSent := [] } := by
  unfold CreatePasswordReset
  rw [if_neg hne, hnx]
  simp

/-- Witness for the amended C8 theorem: the unknown-email request against
`dbC8` is a 200 no-op. -/
theorem requestReset_unknown_email_witness :
    CreatePasswordReset 7 dbC8 "nobody@example.com" "t7" =
      { db := dbC8, response := { status := 200, message := "success" },
        emailsSent := [] } :=
  requestReset_unknown_email_noop 7 dbC8 "nobody@example.com" "t7"
    (by decide) (by decide)

/-- C3: with a stored record for the refresh token, `RefreshToken` fails
with the revoked-token error (and mints nothing) when the record is
revoked; when the record is not revoked and the token verifies with purpose
`refresh`, it returns a fresh one-month access token for the subject id
carried in the refresh token — and on every path the store is returned
unchanged (the operation performs no write). -/
theorem refreshToken_revoked_and_success (envKey : String) (now : Nat)
    (db : DB) (tok : Token) (rt : RefreshTokenRec)
    (hfind : db.refreshTokens.find? (fun r => r.token == tok) = some rt) :
    (rt.revoked = true →
      RefreshToken envKey now db tok = (db, .error .revokedToken)) ∧
    (rt.revoked = false → ParseToken envKey now tok = .ok tok.claims →
      tok.claims.typ = "refresh" →
      RefreshToken envKey now db tok =
        (db, .ok (CreateAccessToken envKey tok.claims.id (now + monthSeconds)))) ∧
    (RefreshToken envKey now db tok).1 = db := by
  refine ⟨?_, ?_, ?_⟩
  · intro hrev
    unfold RefreshToken
    rw [hfind]
    simp [hrev]
  · intro hrev hp htyp
    unfold RefreshToken
    rw [hfind]
    simp [hrev, hp, htyp]
  · unfold RefreshToken
    rw [hfind]
    split
    · rfl
    · split
      · rfl
      · split
        · rfl
        · split <;> rfl

/-- Witness for C3 at concrete inputs: the revoked record makes refresh fail
with the revoked-token error, the active record yields a new access token
for `alice`, and neither run changes the store. -/
theorem refreshToken_witness :
    RefreshToken key0 0 dbTokRevoked rtok0 = (dbTokRevoked, .error .revokedToken) ∧
    RefreshToken key0 0 dbTok rtok0 =
      (dbTok, .ok (CreateAccessToken key0 rtok0.claims.id (0 + monthSeconds))) ∧
    (RefreshToken key0 0 dbTok rtok0).1 = dbTok :=
  ⟨(refreshToken_revoked_and_success key0 0 dbTokRevoked rtok0
      { token := rtok0, revoked := true } rfl).1 rfl,
   (refreshToken_revoked_and_success key0 0 dbTok rtok0
      { token := rtok0, revoked := false } rfl).2.1 rfl rfl rfl,
   (refreshToken_revoked_and_success key0 0 dbTok rtok0
      { token := rtok0, revoked := false } rfl).2.2⟩

/-- C2, amended: `LogOut` sets the revoked flag on every stored record
matching the token string — committing at once, with a missing record not
an error — and, when the token itself resolves to a user, appends a
`logout` activity entry; when the log insert fails the revocation is
nevertheless retained (the two writes are not atomic). -/
theorem logout_revokes_and_logs_nonatomically (envKey : String) (now : Nat)
    (f : Faults) (db : DB) (tok : Token) (usr : User)
    (husr : GetByToken envKey now db tok = .ok usr) :
    (f.createActivityLogFails = false →
      LogOut envKey now f db tok =
        ({ db with
            refreshTokens := db.refreshTokens.map (fun r =>
              if r.token == tok then { r with revoked := true } else r),
            activityLogs := db.activityLogs ++
              [{ userID := usr.id, activityType := .logout }] },
         .ok ())) ∧
    (f.createActivityLogFails = true →
      LogOut envKey now f db tok =
        ({ db with
            refreshTokens := db.refreshTokens.map (fun r =>
              if r.token == tok then { r with revoked := true } else r) },
         .error .storageFault)) := by
  have h1 : GetByToken envKey now
      { db with refreshTokens := db.refreshTokens.map (fun r =>
          if r.token == tok then { r with revoked := true } else r) } tok =
      .ok usr := husr
  constructor
  · intro hf
    simp only [LogOut]
    rw [h1]
    simp [hf]
  · intro hf
    simp only [LogOut]
    rw [h1]
    simp [hf]

/-- Witness for the amended C2 theorem on `dbTok`: the fault-free run
revokes the record and appends the logout entry; the log-fault run keeps
the revocation committed while reporting the storage error. -/
theorem logout_nonatomic_witness :
    LogOut key0 0 Faults.none dbTok rtok0 =
      ({ dbTok with
          refreshTokens := dbTok.refreshTokens.map (fun r =>
            if r.token == rtok0 then { r with revoked := true } else r),
          activityLogs := dbTok.activityLogs ++
            [{ userID := alice.id, activityType := .logout }] },
       .ok ()) ∧
    LogOut key0 0 faultsLog dbTok rtok0 =
      ({ dbTok with
          refreshTokens := dbTok.refreshTokens.map (fun r =>
            if r.token == rtok0 then { r with revoked := true } else r) },
       .error .storageFault) :=
  ⟨(logout_revokes_and_logs_nonatomically key0 0 Faults.none dbTok rtok0 alice rfl).1 rfl,
   (logout_revokes_and_logs_nonatomically key0 0 faultsLog dbTok rtok0 alice rfl).2 rfl⟩

/-- C9: `HasPermission` answers (without error) `true` exactly when the
user–role–permission join yields a single row for the given user id and
permission name; a user with no role, and more generally an empty join,
gives `false`, not an error. -/
theorem hasPermission_count_semantics (db : DB) (userID : Nat) (permName : String) :
    (∃ b, HasPermission db userID permName = .ok b ∧
      (b = true ↔ (permJoinRows db userID permName).length = 1)) ∧
    ((∀ u ∈ db.users, u.id = userID → u.roleID = none) →
      HasPermission db userID permName = .ok false) ∧
    (permJoinRows db userID permName = [] →
      HasPermission db userID permName = .ok false) := by
  refine ⟨⟨(permJoinRows db userID permName).length == 1, rfl, by simp⟩, ?_, ?_⟩
  · intro hnorole
    have hempty : permJoinRows db userID permName = [] := by
      rw [List.eq_nil_iff_forall_not_mem]
      rintro ⟨r, u, rp, p⟩ hmem
      simp only [permJoinRows, List.mem_flatMap, List.mem_filter, List.mem_map] at hmem
      obtain ⟨r', _, ⟨u', ⟨humem, hucond⟩, _, _, ⟨p', _, hp'⟩⟩⟩ := hmem
      have h1 := Bool.and_elim_left hucond
      have h2 := Bool.and_elim_right hucond
      have hid : u'.id = userID := by simpa using h2
      have hrole := hnorole u' humem hid
      rw [hrole] at h1
      simp at h1
    unfold HasPermission
    rw [hempty]
    rfl
  · intro hempty
    unfold HasPermission
    rw [hempty]
    rfl

/-- Witness for C9: on `dbPerm` the single-row join makes `user:read` true,
`user:delete` has no row and is false, and a store whose only user has no
role answers false. -/
theorem hasPermission_count_witness :
    HasPermission dbPerm 1 "user:read" = .ok true ∧
    HasPermission dbPerm 1 "user:delete" = .ok false ∧
    HasPermission dbC8 3 "user:read" = .ok false := by
  refine ⟨?_, ?_, ?_⟩
  · obtain ⟨b, hb, hiff⟩ := (hasPermission_count_semantics dbPerm 1 "user:read").1
    rw [hb]
    have : b = true := hiff.mpr (by decide)
    rw [this]
  · exact (hasPermission_count_semantics dbPerm 1 "user:delete").2.2 (by decide)
  · exact (hasPermission_count_semantics dbC8 3 "user:read").2.1
      (by intro u hu hid; simp [dbC8, emptyDB, carol] at hu; simp [hu, carol])

/-- C7: when the store's first user under the lowercased credential email
exists and its stored hash matches the password, a fault-free `LogIn`
succeeds with an access and a refresh token that both carry that user's id
as subject, and the committed state holds the active refresh-token record
and the `login` activity entry; moreover the transaction is atomic — under
any fault assignment, an erroring `LogIn` leaves the store exactly as it
was. -/
theorem login_token_pair_and_atomicity (envKey : String) (now : Nat) (db : DB)
    (cred : LoginParams) (user : User)
    (hfind : db.users.find? (fun u => u.email == toLowerStr cred.email) = some user)
    (hpw : user.password = HashPassword cred.password) :
    (∃ db2 ts, LogIn envKey now Faults.none db cred = (db2, .ok ts) ∧
      ts.accessToken.claims.id = user.id ∧
      ts.refreshToken.claims.id = user.id ∧
      ({ token := ts.refreshToken, revoked := false } : RefreshTokenRec) ∈
        db2.refreshTokens ∧
      ({ userID := user.id, activityType := .login } : ActivityLog) ∈
        db2.activityLogs) ∧
    (∀ (f : Faults) (db2 : DB) (e : GoErr),
      LogIn envKey now f db cred = (db2, .error e) → db2 = db) := by
  have hb : bcryptMatches user.password cred.password = true := by
    simp [bcryptMatches, hpw]
  constructor
  · cases hro : user.roleID with
    | some rid =>
      have hrun : LogIn envKey now Faults.none db cred =
          ({ db with
              refreshTokens := db.refreshTokens ++
                [{ token := CreateRefreshToken envKey user.id (now + monthSeconds),
                   revoked := false }],
              activityLogs := db.activityLogs ++
                [{ userID := user.id, activityType := .login }] },
           .ok { accessToken := CreateAccessToken envKey user.id
                   (if cred.isLongLiveToken then 0 else now + monthSeconds),
                 refreshToken := CreateRefreshToken envKey user.id (now + monthSeconds) }) := by
        simp only [LogIn]
        rw [hfind]
        simp [hb, hro, Faults.none, Bind.bind, Except.bind, pure, Except.pure]
      refine ⟨_, _, hrun, by simp [CreateAccessToken, CreateJwtToken],
        by simp [CreateRefreshToken, CreateJwtToken], by simp, by simp⟩
    | none =>
      have hrun : LogIn envKey now Faults.none db cred =
          ({ db with
              refreshTokens := db.refreshTokens ++
                [{ token := CreateRefreshToken envKey user.id (now + monthSeconds),
                   revoked := false }],
              roles := db.roles ++
                [{ id := "", name := RoleAdmin, description := "Administrator",
                   teamID := user.organizationID }],
              rolePermissions := db.rolePermissions ++
                AllPermissions.map (fun p => { roleID := "", permissionID := p.id }),
              users := db.users.map (fun u =>
                if u.id == user.id then { u with roleID := some "" } else u),
              activityLogs := db.activityLogs ++
                [{ userID := user.id, activityType := .login }] },
           .ok { accessToken := CreateAccessToken envKey user.id
                   (if cred.isLongLiveToken then 0 else now + monthSeconds),
                 refreshToken := CreateRefreshToken envKey user.id (now + monthSeconds) }) := by
        simp only [LogIn]
        rw [hfind]
        simp [hb, hro, Faults.none, Bind.bind, Except.bind, pure, Except.pure]
      refine ⟨_, _, hrun, by simp [CreateAccessToken, CreateJwtToken],
        by simp [CreateRefreshToken, CreateJwtToken], by simp, by simp⟩
  · intro f db2 e h
    simp only [LogIn] at h
    rw [hfind] at h
    simp only [hb, Bool.not_true, Bool.false_eq_true, if_false] at h
    repeat' split at h
    all_goals
      first
      | (injection h with h1 h2; exact h1.symm)
      | (injection h with h1 h2; exact absurd h2 (by simp))

/-- Witness for C7 at concrete inputs: Alice's fault-free login yields a
token pair for subject 1 with the record and log entry committed, and every
faulted error run leaves `db0` unchanged. -/
theorem login_token_pair_witness :
    (∃ db2 ts, LogIn key0 0 Faults.none db0 credAlice = (db2, .ok ts) ∧
      ts.accessToken.claims.id = alice.id ∧
      ts.refreshToken.claims.id = alice.id ∧
      ({ token := ts.refreshToken, revoked := false } : RefreshTokenRec) ∈
        db2.refreshTokens ∧
      ({ userID := alice.id, activityType := .login } : ActivityLog) ∈
        db2.activityLogs) ∧
    (∀ (f : Faults) (db2 : DB) (e : GoErr),
      LogIn key0 0 f db0 credAlice = (db2, .error e) → db2 = db0) :=
  login_token_pair_and_atomicity key0 0 db0 credAlice alice (by decide) rfl

/-- The one-month lifespan is positive. -/
theorem monthSeconds_pos : 0 < monthSeconds := by decide

/-- The one-week lifespan is positive. -/
theorem weekSeconds_pos : 0 < weekSeconds := by decide

/-- C10: the long-lived-token opt-in strips the expiry claim from the
access token only — every successfully issued refresh token carries a
bounded expiry claim: one month for password login and one week for Line
login, under every fault assignment and regardless of the flag. -/
theorem refreshToken_expiry_always_bounded (envKey : String) (now : Nat)
    (f : Faults) (db : DB) (cred : LoginParams) (lineID : String) :
    (∀ db2 ts, LogIn envKey now f db cred = (db2, .ok ts) →
      ts.refreshToken.claims.exp = some (now + monthSeconds) ∧
      ts.accessToken.claims.exp =
        (if cred.isLongLiveToken then none else some (now + monthSeconds))) ∧
    (∀ db2 ts, LogInByLine envKey now f db lineID = (db2, .ok ts) →
      ts.refreshToken.claims.exp = some (now + weekSeconds) ∧
      ts.accessToken.claims.exp = some (now + monthSeconds)) := by
  constructor
  · intro db2 ts h
    simp only [LogIn] at h
    repeat' split at h
    all_goals (rw [Prod.ext_iff] at h
               obtain ⟨h1, h2⟩ := h
               first
               | exact Except.noConfusion h2
               | (injection h2 with h3
                  subst h3
                  have hnz : now + monthSeconds ≠ 0 := by
                    have := monthSeconds_pos; omega
                  refine ⟨by simp [CreateRefreshToken, CreateJwtToken, hnz], ?_⟩
                  first
                  | (rw [if_pos ‹cred.isLongLiveToken = true›]
                     simp [CreateAccessToken, CreateJwtToken])
                  | (rw [if_neg ‹¬cred.isLongLiveToken = true›]
                     simp [CreateAccessToken, CreateJwtToken, hnz])))
  · intro db2 ts h
    simp only [LogInByLine] at h
    repeat' split at h
    all_goals (rw [Prod.ext_iff] at h
               obtain ⟨h1, h2⟩ := h
               first
               | exact Except.noConfusion h2
               | (injection h2 with h3
                  subst h3
                  have hnzM : now + monthSeconds ≠ 0 := by
                    have := monthSeconds_pos; omega
                  have hnzW : now + weekSeconds ≠ 0 := by
                    have := weekSeconds_pos; omega
                  exact ⟨by simp [CreateRefreshToken, CreateJwtToken, hnzW],
                         by simp [CreateAccessToken, CreateJwtToken, hnzM]⟩))

/-- Witness for C10 at concrete runs: both login flows succeed for Alice and
the issued refresh tokens carry the one-month and one-week expiries while
her (non-long-lived) access tokens carry the one-month expiry. -/
theorem refreshToken_expiry_bounded_witness :
    (tsAlice.refreshToken.claims.exp = some (0 + monthSeconds) ∧
      tsAlice.accessToken.claims.exp =
        (if credAlice.isLongLiveToken then none else some (0 + monthSeconds))) ∧
    (tsLine.refreshToken.claims.exp = some (0 + weekSeconds) ∧
      tsLine.accessToken.claims.exp = some (0 + monthSeconds)) :=
  ⟨(refreshToken_expiry_always_bounded key0 0 Faults.none db0 credAlice "aliceline").1
      dbAfterLogin tsAlice rfl,
   (refreshToken_expiry_always_bounded key0 0 Faults.none db0 credAlice "aliceline").2
      dbAfterLine tsLine rfl⟩

end GoRest
